import Mathlib

/-
  Verification of the genome-cleaner validation/statistics core.

  Shallow embedding of `src/validator.py` and `src/stats.py`:
  Python strings are Lean `String`s (sequences are processed as `List Char`),
  Python `None`-able fields are `Option`s, Python float results that no claim
  compares numerically are modelled as exact rationals (`ℚ`), and Python
  dict results are Lean structures.
-/

set_option autoImplicit false

namespace GenomeCleaner

/-- The characters removed by Python `str.strip()` with no arguments
(ASCII whitespace; the embedding does not model Unicode space characters). -/
def isPySpace (c : Char) : Bool :=
  c == ' ' || c == '\t' || c == '\n' || c == '\r' || c == '\x0b' || c == '\x0c'

/-- Embeds `not sequence.strip()`: true iff every character is whitespace
(in particular for the empty string). -/
def pyStripEmpty (s : String) : Bool :=
  s.toList.all isPySpace

/-- The three characters deleted by the chain
`.replace(" ", "").replace("\t", "").replace("\n", "")` in `validate_sequence`. -/
def isReplacedWs (c : Char) : Bool :=
  c == ' ' || c == '\t' || c == '\n'

/-- The `.replace(" ", "").replace("\t", "").replace("\n", "")` chain: deleting
each of the three characters everywhere is filtering all three out. -/
def removeWs (l : List Char) : List Char :=
  l.filter (fun c => !isReplacedWs c)

/-- Python `str.upper()` on one character. Python maps the ASCII letters
a–z to A–Z; this model is per-character and covers the ASCII range (the
tool's data is ASCII DNA text; Unicode special casings such as one-to-many
uppercase maps are outside the model). -/
def upperTable : List (Char × Char) :=
  [('a', 'A'), ('b', 'B'), ('c', 'C'), ('d', 'D'), ('e', 'E'), ('f', 'F'),
   ('g', 'G'), ('h', 'H'), ('i', 'I'), ('j', 'J'), ('k', 'K'), ('l', 'L'),
   ('m', 'M'), ('n', 'N'), ('o', 'O'), ('p', 'P'), ('q', 'Q'), ('r', 'R'),
   ('s', 'S'), ('t', 'T'), ('u', 'U'), ('v', 'V'), ('w', 'W'), ('x', 'X'),
   ('y', 'Y'), ('z', 'Z')]

def pyUpperChar (c : Char) : Char :=
  match upperTable.find? (fun p => p.1 == c) with
  | some p => p.2
  | none => c

/-- The working copy built at validator.py line 48:
`sequence.upper().replace(" ", "").replace("\t", "").replace("\n", "")`. -/
def seqUpper (s : String) : List Char :=
  removeWs (s.toList.map pyUpperChar)

/-- Membership in the permitted alphabet `'ACGTN'` (validator.py line 57). -/
def isACGTN (c : Char) : Bool :=
  c == 'A' || c == 'C' || c == 'G' || c == 'T' || c == 'N'

/-- First-occurrence deduplication. Python's `set(invalid_chars)` iterates
in an unspecified (hash-seed dependent) order; this function is the
deterministic stand-in used by the executable embedding, and theorems that
depend on the order are stated over every admissible set order instead
(see `IsSetOrder`). -/
def dedupPyFO : List Char → List Char
  | [] => []
  | c :: rest => c :: (dedupPyFO rest).filter (fun x => x ≠ c)

/-- A function is an admissible model of Python set iteration when it
returns each element of its input exactly once, in some order. -/
def IsSetOrder (d : List Char → List Char) : Prop :=
  ∀ l : List Char, (d l).Nodup ∧ ∀ c : Char, c ∈ d l ↔ c ∈ l

/-- Embeds `', '.join(...)` over single-character strings. -/
def joinCommaChars : List Char → String
  | [] => ""
  | [c] => String.mk [c]
  | c :: rest => String.mk [c] ++ ", " ++ joinCommaChars rest

/-- Embeds `_is_low_complexity` (validator.py lines 127–144) applied to the
final sequence. Python compares `len(unique)/len(seq) < 0.3` on floats; as
`0.3` is the double nearest to 3/10 and the quotients involved are exact at
the boundary, the comparison is modelled by the exact rational inequality
written with cross-multiplication. -/
def isLowComplexity (l : List Char) : Bool :=
  if l.length < 10 then false
  else
    let uniqueChars := dedupPyFO (l.map pyUpperChar)
    if uniqueChars.length < 4 ∨ uniqueChars.length * 10 < l.length * 3 then true else false

/-- The validation-result dict built by `validate_sequence` and decorated by
`validate_sequences`. `original_sequence` is listed because `stats.py` and
`get_validation_summary` read that key with `.get`; the validator never
writes it, so it is `none` on every result the validator produces.
`sequence_index` is written only by `validate_sequences`. -/
structure ValidationResult where
  is_valid : Bool
  errors : List String
  warnings : List String
  corrected_sequence : Option String
  header : String
  original_length : Nat
  corrected_length : Option Nat
  original_sequence : Option String := none
  sequence_index : Option Nat := none
deriving Repr, DecidableEq, Inhabited

/-- Embeds `result["errors"].append(msg)` together with
`result["is_valid"] = False` (always performed together in the source). -/
def addError (msg : String) (r : ValidationResult) : ValidationResult :=
  { r with errors := r.errors ++ [msg], is_valid := false }

/-- Embeds `result["warnings"].append(msg)`. -/
def addWarning (msg : String) (r : ValidationResult) : ValidationResult :=
  { r with warnings := r.warnings ++ [msg] }

/-- The initial result dict of `validate_sequence` (validator.py lines 31–39). -/
def initResult (header sequence : String) (sanitize : Bool) : ValidationResult :=
  { is_valid := true
    errors := []
    warnings := []
    corrected_sequence := if sanitize then some sequence else none
    header := header
    original_length := sequence.length
    corrected_length := if sanitize then some sequence.length else none }

/-- The invalid-character check (validator.py lines 50–71). Since newlines
have been deleted from the working copy, `re.match(r'^[ACGTN]*$', seq_upper)`
succeeds iff every character is in `ACGTN`, and on failure the collected
`invalid_chars` list is necessarily non-empty. `dedup` models the iteration
order of `set(invalid_chars)`. -/
def checkInvalidChars (dedup : List Char → List Char) (sequence : String)
    (seq_upper : List Char) (sanitize : Bool) (r : ValidationResult) : ValidationResult :=
  if (seq_upper.filter (fun c => !isACGTN c)).isEmpty then
    let value := if sanitize then String.mk seq_upper else sequence
    { r with corrected_sequence := some value }
  else
    let invalid_chars := seq_upper.filter (fun c => !isACGTN c)
    let r1 := addError ("Invalid characters found: " ++ joinCommaChars (dedup invalid_chars)) r
    if sanitize then
      let corrected := seq_upper.map (fun c => if isACGTN c then c else 'N')
      { r1 with corrected_sequence := some (String.mk corrected)
                corrected_length := some corrected.length }
    else r1

/-- The minimum-length check (validator.py lines 73–78). -/
def checkMinLength (final_sequence : List Char) (min_length : Nat)
    (r : ValidationResult) : ValidationResult :=
  if final_sequence.length < min_length then
    addError ("Sequence too short: " ++ toString final_sequence.length ++
      " bp (minimum: " ++ toString min_length ++ " bp)") r
  else r

/-- The all-N warning (validator.py lines 80–82). -/
def checkAllN (final_sequence : List Char) (r : ValidationResult) : ValidationResult :=
  if !final_sequence.isEmpty && final_sequence.all (fun c => c == 'N') then
    addWarning "Sequence contains only N characters (likely low quality)" r
  else r

/-- The low-complexity warning (validator.py lines 84–86). -/
def checkComplexity (final_sequence : List Char) (r : ValidationResult) : ValidationResult :=
  if isLowComplexity final_sequence then
    addWarning "Low complexity sequence detected" r
  else r

/-- Embeds `final_sequence = result["corrected_sequence"] if sanitize else seq_upper`
(validator.py line 74). When `sanitize` is true the field always holds a string,
so the `getD` default is never used. -/
def finalSeqOf (sanitize : Bool) (seq_upper : List Char) (r : ValidationResult) : List Char :=
  if sanitize then (r.corrected_sequence.getD "").toList else seq_upper

/-- Embeds `validate_sequence` (validator.py lines 15–88), parameterized by the
iteration order of `set(invalid_chars)`. -/
def validateSequenceD (dedup : List Char → List Char) (header sequence : String)
    (min_length : Nat) (sanitize : Bool) : ValidationResult :=
  if pyStripEmpty sequence then
    addError "Empty sequence" (initResult header sequence sanitize)
  else
    let seq_upper := seqUpper sequence
    let r1 := checkInvalidChars dedup sequence seq_upper sanitize (initResult header sequence sanitize)
    let final_sequence := finalSeqOf sanitize seq_upper r1
    checkComplexity final_sequence (checkAllN final_sequence (checkMinLength final_sequence min_length r1))

/-- The executable instance of `validate_sequence`, with first-occurrence
order standing in for Python's unspecified set iteration order (no claim
about this function depends on that order). -/
def validate_sequence (header sequence : String) (min_length : Nat) (sanitize : Bool) :
    ValidationResult :=
  validateSequenceD dedupPyFO header sequence min_length sanitize

/-- The duplicate-header decoration and index assignment applied to one
record inside the loop of `validate_sequences` (validator.py lines 109–122).
`header in duplicate_headers` is exactly `1 < header_counts[header]`. -/
def decorateResult (headers : List String) (i : Nat) (header : String)
    (r : ValidationResult) : ValidationResult :=
  let cnt := headers.count header
  let r1 :=
    if 1 < cnt then
      addError ("Duplicate header found (" ++ toString cnt ++ " occurrences)") r
    else r
  { r1 with sequence_index := some i }

/-- The loop of `validate_sequences`, with `i` the running `enumerate` index. -/
def validateSequencesAux (headers : List String) (min_length : Nat) (sanitize : Bool) :
    Nat → List (String × String) → List ValidationResult
  | _, [] => []
  | i, (header, sequence) :: rest =>
    decorateResult headers i header (validate_sequence header sequence min_length sanitize) ::
      validateSequencesAux headers min_length sanitize (i + 1) rest

/-- Embeds `validate_sequences` (validator.py lines 91–124). -/
def validate_sequences (sequences : List (String × String)) (min_length : Nat)
    (sanitize : Bool) : List ValidationResult :=
  validateSequencesAux (sequences.map Prod.fst) min_length sanitize 0 sequences

/-- Helper for Python's substring test `needle in hay`. -/
def containsAux (needle : List Char) : List Char → Bool
  | [] => needle.isEmpty
  | c :: rest => needle.isPrefixOf (c :: rest) || containsAux needle rest

/-- Python's `needle in hay` on strings (substring containment). -/
def strContainsSub (needle hay : String) : Bool :=
  containsAux needle.toList hay.toList

/-- Embeds `_classify_error` (stats.py lines 268–279); the leading underscore
is dropped from the Python name. -/
def classify_error (error : String) : String :=
  if strContainsSub "Invalid characters" error then "Invalid characters"
  else if strContainsSub "too short" error then "Too short"
  else if strContainsSub "Duplicate header" error then "Duplicate header"
  else if strContainsSub "Empty sequence" error then "Empty sequence"
  else "Other"

/-- One step of counting with a Python `dict`/`Counter` that preserves first
insertion order: bump the count of `k`, appending it when absent. -/
def bumpAssoc (k : String) : List (String × Nat) → List (String × Nat)
  | [] => [(k, 1)]
  | (k', n) :: rest => if k = k' then (k', n + 1) :: rest else (k', n) :: bumpAssoc k rest

/-- Count a list of keys into an insertion-ordered association list, as a
Python `Counter` / `dict.get(k, 0) + 1` loop does. -/
def countAssoc (keys : List String) : List (String × Nat) :=
  keys.foldl (fun acc k => bumpAssoc k acc) []

/-- Embeds line 56 of stats.py:
`sequence = result.get("corrected_sequence") or result.get("original_sequence", "")`.
`or` takes the left operand only when it is truthy (a non-empty string). -/
def analyzedSeq (r : ValidationResult) : String :=
  let c := r.corrected_sequence.getD ""
  if c = "" then r.original_sequence.getD "" else c

/-- The truthiness-and-difference test of stats.py lines 47–48 and
validator.py lines 244–246: `result.get("corrected_sequence") and
result.get("corrected_sequence") != result.get("original_sequence", "")`. -/
def countsAsSanitized (r : ValidationResult) : Bool :=
  match r.corrected_sequence with
  | some c => !(c = "") && !(c = r.original_sequence.getD "")
  | none => false

/-- `any("Duplicate header" in error for error in result["errors"])`. -/
def hasDuplicateError (r : ValidationResult) : Bool :=
  r.errors.any (fun e => strContainsSub "Duplicate header" e)

/-- The GC-content computation inlined in `generate_report`
(stats.py lines 61–70). Python computes on floats; no claim compares the
value numerically, so it is modelled as an exact rational. -/
def gcContentQ (s : String) : ℚ :=
  let u := s.toList.map pyUpperChar
  let gc_count := u.count 'G' + u.count 'C'
  let at_count := u.count 'A' + u.count 'T'
  if gc_count + at_count = 0 then 0 else ((gc_count : ℚ) / (gc_count + at_count)) * 100

/-- The quartile triple of `_calculate_quartiles` (stats.py lines 238–247). -/
structure QuartilesR where
  q1 : Nat
  q2 : Nat
  q3 : Nat
deriving Repr, DecidableEq

/-- Embeds `_calculate_quartiles` (stats.py lines 238–247). Python's
`sorted` is an ascending stable sort; on integers this is `insertionSort`
with `≤`. The `getD` default is the `if n > 0 else 0` guard of the source. -/
def calculate_quartiles (values : List Nat) : QuartilesR :=
  let sorted_values := values.insertionSort (fun a b => a ≤ b)
  let n := sorted_values.length
  { q1 := if 0 < n then sorted_values.getD (n / 4) 0 else 0
    q2 := if 0 < n then sorted_values.getD (n / 2) 0 else 0
    q3 := if 0 < n then sorted_values.getD (3 * n / 4) 0 else 0 }

/-- The dict returned by `_calculate_length_stats` when its input is non-empty. -/
structure LengthStatsR where
  min : Nat
  max : Nat
  mean : ℚ
  median : Nat
  total : Nat
  count : Nat
  quartiles : QuartilesR
deriving Repr, DecidableEq

/-- Embeds `_calculate_length_stats` (stats.py lines 208–221); `none` is the
empty dict returned for an empty input. Python `min`/`max` on a non-empty
int list are folds; the `getD 0` defaults are unreachable for non-empty input. -/
def calculate_length_stats (lengths : List Nat) : Option LengthStatsR :=
  if lengths.isEmpty then none
  else
    some
      { min := (lengths.min?).getD 0
        max := (lengths.max?).getD 0
        mean := (lengths.sum : ℚ) / (lengths.length : ℚ)
        median := (lengths.insertionSort (fun a b => a ≤ b)).getD (lengths.length / 2) 0
        total := lengths.sum
        count := lengths.length
        quartiles := calculate_quartiles lengths }

/-- The dict returned by `_calculate_gc_stats` when its input is non-empty. -/
structure GcStatsR where
  min : ℚ
  max : ℚ
  mean : ℚ
  median : ℚ
  count : Nat
deriving Repr, DecidableEq

/-- Embeds `_calculate_gc_stats` (stats.py lines 224–235). -/
def calculate_gc_stats (gc_contents : List ℚ) : Option GcStatsR :=
  if gc_contents.isEmpty then none
  else
    some
      { min := (gc_contents.min?).getD 0
        max := (gc_contents.max?).getD 0
        mean := gc_contents.sum / (gc_contents.length : ℚ)
        median := (gc_contents.insertionSort (fun a b => a ≤ b)).getD (gc_contents.length / 2) 0
        count := gc_contents.length }

/-- One row of the `sequence_statistics` array (stats.py lines 75–90). -/
structure SeqStatsR where
  length : Nat
  gc_content : ℚ
  a_count : Nat
  t_count : Nat
  g_count : Nat
  c_count : Nat
  n_count : Nat
  valid_chars : Nat
  sequence_index : Nat
  header : String
  is_valid : Bool
deriving Repr, DecidableEq

/-- One row of the `top_10_longest` array (stats.py lines 256–263). -/
structure TopEntryR where
  rank : Nat
  header : String
  length : Nat
  gc_content : ℚ
  sequence_index : Nat
deriving Repr, DecidableEq

/-- Embeds `_get_top_10_longest` (stats.py lines 250–265). Python's
`sorted(..., reverse=True)` is a stable descending sort; stability is made
explicit by sorting the position-tagged list with position as tie-break. -/
def get_top_10_longest (sequence_stats : List SeqStatsR) : List TopEntryR :=
  let tagged := sequence_stats.enum
  let sorted_stats := tagged.insertionSort
    (fun a b => b.2.length < a.2.length ∨ (a.2.length = b.2.length ∧ a.1 ≤ b.1))
  ((sorted_stats.map Prod.snd).take 10).enum.map (fun p =>
    { rank := p.1 + 1
      header := p.2.header
      length := p.2.length
      gc_content := p.2.gc_content
      sequence_index := p.2.sequence_index })

/-- One entry of the `error_details` list (stats.py lines 102–107). -/
structure ErrorDetailR where
  sequence_index : Nat
  header : String
  error : String
  error_type : String
deriving Repr, DecidableEq

/-- One entry of `invalid_sequences_detail` (stats.py lines 94–100). -/
structure InvalidDetailR where
  index : Nat
  header : String
  errors : List String
  warnings : List String
  length : Nat
deriving Repr, DecidableEq

/-- The dict built by `_analyze_errors`. Its empty-input branch returns a
dict without the `most_common_count` key, hence the `Option`. -/
structure ErrorAnalysisR where
  total_errors : Nat
  error_types : List (String × Nat)
  most_common_error : Option String
  most_common_count : Option Nat
deriving Repr, DecidableEq

/-- Python `max(items, key=lambda x: x[1])` over dict items: the first item
with the maximal count wins ties. -/
def maxByCountFirst : List (String × Nat) → Option (String × Nat)
  | [] => none
  | p :: rest =>
    match maxByCountFirst rest with
    | none => some p
    | some q => if p.2 < q.2 then some q else some p

/-- Embeds `_analyze_errors` (stats.py lines 282–303). -/
def analyze_errors (error_details : List ErrorDetailR) : ErrorAnalysisR :=
  if error_details.isEmpty then
    { total_errors := 0, error_types := [], most_common_error := none, most_common_count := none }
  else
    let error_types := countAssoc (error_details.map (fun d => d.error_type))
    let most_common := maxByCountFirst error_types
    { total_errors := error_details.length
      error_types := error_types
      most_common_error := most_common.map Prod.fst
      most_common_count := some ((most_common.map Prod.snd).getD 0) }

/-- The quality-level counts of `_calculate_quality_distribution`. -/
structure QualityDistR where
  high_quality : Nat
  medium_quality : Nat
  low_quality : Nat
  unusable : Nat
deriving Repr, DecidableEq

/-- Embeds `_calculate_quality_distribution` (stats.py lines 306–335); the
loop puts each result in exactly one of four mutually exclusive buckets, so
the counts are the four filters. The empty dict for empty input is `none`. -/
def calculate_quality_distribution (validation_results : List ValidationResult) :
    Option QualityDistR :=
  if validation_results.isEmpty then none
  else
    some
      { high_quality := (validation_results.filter
          (fun r => r.errors.isEmpty && r.warnings.isEmpty)).length
        medium_quality := (validation_results.filter
          (fun r => r.errors.isEmpty && !r.warnings.isEmpty)).length
        low_quality := (validation_results.filter (fun r => !r.errors.isEmpty &&
          r.errors.any (fun e => strContainsSub "Invalid characters" e))).length
        unusable := (validation_results.filter (fun r => !r.errors.isEmpty &&
          !r.errors.any (fun e => strContainsSub "Invalid characters" e))).length }

/-- The `metadata` sub-record. The `generated_at` wall-clock timestamp is the
one non-deterministic field of the system and is outside the model. -/
structure MetadataR where
  total_sequences : Nat
  tool_version : String
deriving Repr, DecidableEq

/-- The `summary` sub-record of the report (stats.py lines 129–137). -/
structure ReportSummaryR where
  total_sequences : Nat
  valid_sequences : Nat
  invalid_sequences : Nat
  sanitized_sequences : Nat
  duplicate_headers : Nat
  validity_percentage : ℚ
  sanitization_rate : ℚ
deriving Repr, DecidableEq

/-- The report dict (stats.py lines 123–145). Fields that `_empty_report`
fills with an empty dict are `Option`s. -/
structure ReportR where
  metadata : MetadataR
  summary : ReportSummaryR
  sequence_lengths : Option LengthStatsR
  gc_content : Option GcStatsR
  top_10_longest : List TopEntryR
  quality_distribution : Option QualityDistR
  error_analysis : Option ErrorAnalysisR
  invalid_sequences_detail : List InvalidDetailR
  sequence_statistics : List SeqStatsR
deriving Repr, DecidableEq

/-- Embeds `_empty_report` (stats.py lines 181–205). -/
def empty_report : ReportR :=
  { metadata := { total_sequences := 0, tool_version := "1.0.0" }
    summary :=
      { total_sequences := 0, valid_sequences := 0, invalid_sequences := 0
        sanitized_sequences := 0, duplicate_headers := 0
        validity_percentage := 0, sanitization_rate := 0 }
    sequence_lengths := none
    gc_content := none
    top_10_longest := []
    quality_distribution := none
    error_analysis := none
    invalid_sequences_detail := []
    sequence_statistics := [] }

/-- The position-tagged results whose analyzed sequence is truthy: exactly
the loop iterations of stats.py lines 56–90 that execute `if sequence:`. -/
def contributingPairs (validation_results : List ValidationResult) :
    List (Nat × ValidationResult) :=
  validation_results.enum.filter (fun p => !(analyzedSeq p.2 = ""))

/-- The `lengths` list accumulated by the report loop (stats.py line 59). -/
def reportLengths (validation_results : List ValidationResult) : List Nat :=
  (contributingPairs validation_results).map (fun p => (analyzedSeq p.2).length)

/-- The per-sequence stats row built at stats.py lines 74–89 for the result
at position `i`. -/
def seqStatsOf (i : Nat) (r : ValidationResult) : SeqStatsR :=
  let u := (analyzedSeq r).toList.map pyUpperChar
  { length := u.length
    gc_content := gcContentQ (analyzedSeq r)
    a_count := u.count 'A'
    t_count := u.count 'T'
    g_count := u.count 'G'
    c_count := u.count 'C'
    n_count := u.count 'N'
    valid_chars := u.count 'A' + u.count 'T' + u.count 'G' + u.count 'C'
    sequence_index := i
    header := r.header
    is_valid := r.is_valid }

/-- The `invalid_sequences` list of the report loop (stats.py lines 93–100).
`result.get("original_length", 0)` is the `original_length` field, which the
validator always writes. -/
def invalidDetails (validation_results : List ValidationResult) : List InvalidDetailR :=
  (validation_results.enum.filter (fun p => !p.2.is_valid)).map (fun p =>
    { index := p.1, header := p.2.header, errors := p.2.errors
      warnings := p.2.warnings, length := p.2.original_length })

/-- The `error_details` list of the report loop (stats.py lines 102–107). -/
def errorDetails (validation_results : List ValidationResult) : List ErrorDetailR :=
  (validation_results.enum.filter (fun p => !p.2.is_valid)).flatMap (fun p =>
    p.2.errors.map (fun e =>
      { sequence_index := p.1, header := p.2.header, error := e
        error_type := classify_error e }))

/-- Embeds `generate_report` (stats.py lines 17–147). The `if total > 0`
guards on the percentages are omitted because the branch has
`total_seqs ≥ 1`; `_calculate_length_stats(lengths) if lengths else {}`
coincides with the empty-input guard inside the helper itself. -/
def generate_report (validation_results : List ValidationResult) : ReportR :=
  if validation_results.isEmpty then empty_report
  else
    let total_seqs := validation_results.length
    let valid_seqs := (validation_results.filter (fun r => r.is_valid)).length
    let sanitized_seqs := (validation_results.filter countsAsSanitized).length
    let gc_contents := (contributingPairs validation_results).map
      (fun p => gcContentQ (analyzedSeq p.2))
    let sequence_stats := (contributingPairs validation_results).map
      (fun p => seqStatsOf p.1 p.2)
    { metadata := { total_sequences := total_seqs, tool_version := "1.0.0" }
      summary :=
        { total_sequences := total_seqs
          valid_sequences := valid_seqs
          invalid_sequences := total_seqs - valid_seqs
          sanitized_sequences := sanitized_seqs
          duplicate_headers := (validation_results.filter hasDuplicateError).length
          validity_percentage := ((valid_seqs : ℚ) / (total_seqs : ℚ)) * 100
          sanitization_rate := ((sanitized_seqs : ℚ) / (total_seqs : ℚ)) * 100 }
      sequence_lengths := calculate_length_stats (reportLengths validation_results)
      gc_content := calculate_gc_stats gc_contents
      top_10_longest := get_top_10_longest sequence_stats
      quality_distribution := calculate_quality_distribution validation_results
      error_analysis := some (analyze_errors (errorDetails validation_results))
      invalid_sequences_detail := invalidDetails validation_results
      sequence_statistics := sequence_stats }

/-- The error classification of `get_validation_summary` (validator.py
lines 257–268); note the plural `"Duplicate headers"` label, unlike
`_classify_error` in stats.py. -/
def classifySummaryError (error : String) : String :=
  if strContainsSub "Invalid characters" error then "Invalid characters"
  else if strContainsSub "too short" error then "Too short"
  else if strContainsSub "Duplicate header" error then "Duplicate headers"
  else if strContainsSub "Empty sequence" error then "Empty sequence"
  else "Other"

/-- The dict returned by `get_validation_summary`. The empty-input early
return omits the `validity_percentage` key, hence the `Option`. -/
structure ValidationSummaryR where
  total_sequences : Nat
  valid_sequences : Nat
  invalid_sequences : Nat
  sanitized_sequences : Nat
  duplicate_headers : Nat
  total_errors : Nat
  error_types : List (String × Nat)
  validity_percentage : Option ℚ
deriving Repr, DecidableEq

/-- Embeds `get_validation_summary` (validator.py lines 220–279). -/
def get_validation_summary (validation_results : List ValidationResult) :
    ValidationSummaryR :=
  if validation_results.isEmpty then
    { total_sequences := 0, valid_sequences := 0, invalid_sequences := 0
      sanitized_sequences := 0, duplicate_headers := 0, total_errors := 0
      error_types := [], validity_percentage := none }
  else
    let total := validation_results.length
    let valid := (validation_results.filter (fun r => r.is_valid)).length
    let all_errors := validation_results.flatMap (fun r => r.errors)
    { total_sequences := total
      valid_sequences := valid
      invalid_sequences := total - valid
      sanitized_sequences := (validation_results.filter countsAsSanitized).length
      duplicate_headers := (validation_results.filter hasDuplicateError).length
      total_errors := all_errors.length
      error_types := countAssoc (all_errors.map classifySummaryError)
      validity_percentage := some (((valid : ℚ) / (total : ℚ)) * 100) }

/-
  Supporting lemmas: the validity/errors invariant is preserved by every
  step of result assembly.
-/

/-- The data-model invariant of a validation result. -/
def ErrorsInv (r : ValidationResult) : Prop :=
  r.is_valid = true ↔ r.errors = []

theorem errorsInv_initResult (h s : String) (san : Bool) : ErrorsInv (initResult h s san) := by
  simp [ErrorsInv, initResult]

theorem errorsInv_addError (m : String) (r : ValidationResult) : ErrorsInv (addError m r) := by
  simp [ErrorsInv, addError]

theorem errorsInv_addWarning (m : String) (r : ValidationResult) (hr : ErrorsInv r) :
    ErrorsInv (addWarning m r) := by
  simpa [ErrorsInv, addWarning] using hr

theorem errorsInv_checkInvalidChars (d : List Char → List Char) (s : String)
    (u : List Char) (san : Bool) (r : ValidationResult) (hr : ErrorsInv r) :
    ErrorsInv (checkInvalidChars d s u san r) := by
  unfold checkInvalidChars
  split
  · simpa [ErrorsInv] using hr
  · split
    · simp [ErrorsInv, addError]
    · exact errorsInv_addError _ r

theorem errorsInv_checkMinLength (fin : List Char) (m : Nat) (r : ValidationResult)
    (hr : ErrorsInv r) : ErrorsInv (checkMinLength fin m r) := by
  unfold checkMinLength
  split
  · exact errorsInv_addError _ r
  · exact hr

theorem errorsInv_checkAllN (fin : List Char) (r : ValidationResult) (hr : ErrorsInv r) :
    ErrorsInv (checkAllN fin r) := by
  unfold checkAllN
  split
  · exact errorsInv_addWarning _ r hr
  · exact hr

theorem errorsInv_checkComplexity (fin : List Char) (r : ValidationResult) (hr : ErrorsInv r) :
    ErrorsInv (checkComplexity fin r) := by
  unfold checkComplexity
  split
  · exact errorsInv_addWarning _ r hr
  · exact hr

theorem errorsInv_validateSequenceD (d : List Char → List Char) (h s : String)
    (m : Nat) (san : Bool) : ErrorsInv (validateSequenceD d h s m san) := by
  unfold validateSequenceD
  split
  · exact errorsInv_addError _ _
  · exact errorsInv_checkComplexity _ _ (errorsInv_checkAllN _ _
      (errorsInv_checkMinLength _ _ _
        (errorsInv_checkInvalidChars _ _ _ _ _ (errorsInv_initResult h s san))))

theorem errorsInv_decorateResult (hs : List String) (i : Nat) (hd : String)
    (r : ValidationResult) (hr : ErrorsInv r) : ErrorsInv (decorateResult hs i hd r) := by
  by_cases hc : 1 < List.count hd hs
  · simp [decorateResult, hc, ErrorsInv, addError]
  · simpa [decorateResult, hc, ErrorsInv] using hr

theorem errorsInv_validateSequencesAux (hs : List String) (m : Nat) (san : Bool) :
    ∀ (l : List (String × String)) (i : Nat) (r : ValidationResult),
      r ∈ validateSequencesAux hs m san i l → ErrorsInv r := by
  intro l
  induction l with
  | nil => intro i r hr; simp [validateSequencesAux] at hr
  | cons p rest ih =>
    intro i r hr
    rw [validateSequencesAux] at hr
    rcases List.mem_cons.mp hr with h1 | h2
    · subst h1
      exact errorsInv_decorateResult _ _ _ _ (errorsInv_validateSequenceD _ _ _ _ _)
    · exact ih (i + 1) r h2

/-- C1: for every result produced by `validate_sequence`, and for every
element of the list produced by `validate_sequences`, the `is_valid` field
is true if and only if the `errors` list is empty. -/
theorem c1_is_valid_iff_errors_empty :
    (∀ (h s : String) (m : Nat) (san : Bool),
      (validate_sequence h s m san).is_valid = true ↔
        (validate_sequence h s m san).errors = []) ∧
    (∀ (seqs : List (String × String)) (m : Nat) (san : Bool) (r : ValidationResult),
      r ∈ validate_sequences seqs m san → (r.is_valid = true ↔ r.errors = [])) := by
  constructor
  · intro h s m san
    exact errorsInv_validateSequenceD dedupPyFO h s m san
  · intro seqs m san r hr
    exact errorsInv_validateSequencesAux (seqs.map Prod.fst) m san seqs 0 r hr

/-- Witness for C1 at a concrete input (one record valid, duplicate-header
batch for the second conjunct). -/
theorem c1_is_valid_iff_errors_empty_witness :
    ((validate_sequence "seq1" "ACGTACGT" 20 false).is_valid = true ↔
      (validate_sequence "seq1" "ACGTACGT" 20 false).errors = []) ∧
    (((validate_sequences [("x", "ACGT"), ("x", "TT")] 0 false).headI).is_valid = true ↔
      ((validate_sequences [("x", "ACGT"), ("x", "TT")] 0 false).headI).errors = []) :=
  ⟨c1_is_valid_iff_errors_empty.1 "seq1" "ACGTACGT" 20 false,
   c1_is_valid_iff_errors_empty.2 [("x", "ACGT"), ("x", "TT")] 0 false _ (by decide)⟩

/-- Indexing lemma for the batch loop: the result at position `j` is the
validated record at position `j`, decorated with index `i + j`. -/
theorem validateSequencesAux_getElem? (hs : List String) (m : Nat) (san : Bool) :
    ∀ (l : List (String × String)) (i j : Nat) (p : String × String),
      l[j]? = some p →
      (validateSequencesAux hs m san i l)[j]? =
        some (decorateResult hs (i + j) p.1 (validate_sequence p.1 p.2 m san)) := by
  intro l
  induction l with
  | nil => intro i j p hp; simp at hp
  | cons q rest ih =>
    obtain ⟨qh, qs⟩ := q
    intro i j p hp
    cases j with
    | zero =>
      simp only [List.getElem?_cons_zero, Option.some.injEq] at hp
      subst hp
      simp [validateSequencesAux]
    | succ j' =>
      simp only [List.getElem?_cons_succ] at hp
      rw [validateSequencesAux]
      simp only [List.getElem?_cons_succ]
      rw [ih (i + 1) j' p hp]
      have : i + 1 + j' = i + (j' + 1) := by omega
      rw [this]

/-- C3: in every batch, every record whose header occurs more than once
(case-sensitive exact match) yields a result carrying the error
`"Duplicate header found ({count} occurrences)"` with the total occurrence
count, and `is_valid = false` — for every occurrence, first included,
whatever the record's sequence is. -/
theorem c3_duplicate_header_error (seqs : List (String × String)) (m : Nat) (san : Bool)
    (j : Nat) (p : String × String) (hj : seqs[j]? = some p)
    (hdup : 1 < (seqs.map Prod.fst).count p.1) :
    ∃ r, (validate_sequences seqs m san)[j]? = some r ∧
      ("Duplicate header found (" ++ toString ((seqs.map Prod.fst).count p.1) ++
        " occurrences)") ∈ r.errors ∧ r.is_valid = false := by
  have hidx := validateSequencesAux_getElem? (seqs.map Prod.fst) m san seqs 0 j p hj
  rw [Nat.zero_add] at hidx
  refine ⟨_, hidx, ?_, ?_⟩
  · simp [decorateResult, hdup, addError]
  · simp [decorateResult, hdup, addError]

/-- Witness for C3: header `"x"` appears three times; the middle occurrence
carries the three-occurrence duplicate error and is invalid. -/
theorem c3_duplicate_header_error_witness :
    ∃ r, (validate_sequences [("x", "ACGTACGT"), ("x", "TTTTAAAA"), ("x", "GGGG")] 0 false)[1]? =
        some r ∧
      ("Duplicate header found (3 occurrences)") ∈ r.errors ∧ r.is_valid = false :=
  c3_duplicate_header_error [("x", "ACGTACGT"), ("x", "TTTTAAAA"), ("x", "GGGG")] 0 false 1
    ("x", "TTTTAAAA") (by decide) (by decide)

/-- C10: a sequence that is empty after trimming whitespace, validated with
sanitize=true, returns early with exactly the error `"Empty sequence"`,
`is_valid = false`, no warnings, `corrected_sequence` equal to the raw
un-normalized input (whitespace kept, not uppercased, nothing replaced by
`N`), and `corrected_length` equal to the raw input's length. -/
theorem c10_empty_after_strip_early_exit (h s : String) (m : Nat)
    (hws : pyStripEmpty s = true) :
    validate_sequence h s m true =
      { is_valid := false, errors := ["Empty sequence"], warnings := []
        corrected_sequence := some s, header := h, original_length := s.length
        corrected_length := some s.length, original_sequence := none
        sequence_index := none } := by
  unfold validate_sequence validateSequenceD
  rw [if_pos hws]
  simp [addError, initResult]

/-- Witness for C10 at the whitespace-only input `" \t"`. -/
theorem c10_empty_after_strip_early_exit_witness :
    validate_sequence "h" " \t" 5 true =
      { is_valid := false, errors := ["Empty sequence"], warnings := []
        corrected_sequence := some " \t", header := "h", original_length := 2
        corrected_length := some 2, original_sequence := none
        sequence_index := none } := by
  have := c10_empty_after_strip_early_exit "h" " \t" 5 (by decide)
  simpa using this

/-- C2 (failing-input evaluation): with `sanitize=false` and a sequence of
valid characters, validator.py line 71 stores the raw sequence in
`corrected_sequence` instead of leaving it `None` (the repository's own
tests `test_validate_sequence_valid` and `test_validate_sequence_valid_short`
assert `None` here); `corrected_length` does stay `None`. -/
theorem c2_corrected_sequence_set_without_sanitize :
    (validate_sequence "seq1" "ACGTACGT" 20 false).corrected_sequence = some "ACGTACGT" ∧
    (validate_sequence "seq1" "ACGTACGT" 20 false).corrected_length = none := by decide

/-- The ten characters `[ACGTNacgtn]` of claim C5. -/
def allowedInputChars : List Char :=
  ['A', 'C', 'G', 'T', 'N', 'a', 'c', 'g', 't', 'n']

theorem allowed_not_pySpace : ∀ c ∈ allowedInputChars, isPySpace c = false := by decide

theorem allowed_upper_isACGTN : ∀ c ∈ allowedInputChars, isACGTN (pyUpperChar c) = true := by
  decide

theorem allowed_upper_not_replacedWs :
    ∀ c ∈ allowedInputChars, isReplacedWs (pyUpperChar c) = false := by decide

theorem checkAllN_errors (f : List Char) (r : ValidationResult) :
    (checkAllN f r).errors = r.errors := by
  unfold checkAllN; split <;> simp [addWarning]

theorem checkAllN_is_valid (f : List Char) (r : ValidationResult) :
    (checkAllN f r).is_valid = r.is_valid := by
  unfold checkAllN; split <;> simp [addWarning]

theorem checkComplexity_errors (f : List Char) (r : ValidationResult) :
    (checkComplexity f r).errors = r.errors := by
  unfold checkComplexity; split <;> simp [addWarning]

theorem checkComplexity_is_valid (f : List Char) (r : ValidationResult) :
    (checkComplexity f r).is_valid = r.is_valid := by
  unfold checkComplexity; split <;> simp [addWarning]

/-- C5 counterexample: the empty string consists (vacuously) only of
characters in `[ACGTNacgtn]` and its length is ≥ the minimum 0, yet the
claim's conclusion fails: validation reports `"Empty sequence"`. -/
theorem c5_counterexample :
    (∀ c ∈ "".toList, c ∈ allowedInputChars) ∧ 0 ≤ "".length ∧
    ¬ ((validate_sequence "h" "" 0 false).is_valid = true ∧
       (validate_sequence "h" "" 0 false).errors = []) := by decide

/-- C5 as amended: every NON-EMPTY sequence of length ≥ `min_length`
consisting only of `[ACGTNacgtn]` validates with `is_valid = true` and no
errors, for any header and either sanitize value. -/
theorem c5_acgtn_sequences_valid (h s : String) (m : Nat) (san : Bool)
    (hne : s ≠ "") (hchars : ∀ c ∈ s.toList, c ∈ allowedInputChars)
    (hlen : m ≤ s.length) :
    (validate_sequence h s m san).is_valid = true ∧
    (validate_sequence h s m san).errors = [] := by
  have hnil : s.toList ≠ [] := by
    intro hl
    exact hne (String.ext (by simpa using hl))
  have hstrip : pyStripEmpty s = false := by
    unfold pyStripEmpty
    cases hl : s.toList with
    | nil => exact absurd hl hnil
    | cons c rest =>
      have hc : c ∈ s.toList := by rw [hl]; exact List.mem_cons_self c rest
      simp only [List.all_cons, Bool.and_eq_false_iff]
      exact Or.inl (allowed_not_pySpace c (hchars c hc))
  have hupper : seqUpper s = s.toList.map pyUpperChar := by
    unfold seqUpper removeWs
    apply List.filter_eq_self.mpr
    intro c hc
    obtain ⟨c0, hc0, rfl⟩ := List.mem_map.mp hc
    simp [allowed_upper_not_replacedWs c0 (hchars c0 hc0)]
  have hclean : (seqUpper s).filter (fun c => !isACGTN c) = [] := by
    rw [hupper]
    apply List.filter_eq_nil_iff.mpr
    intro c hc
    obtain ⟨c0, hc0, rfl⟩ := List.mem_map.mp hc
    simp [allowed_upper_isACGTN c0 (hchars c0 hc0)]
  have hlen2 : (seqUpper s).length = s.length := by
    rw [hupper, List.length_map]
    rfl
  unfold validate_sequence validateSequenceD
  rw [if_neg (by simp [hstrip])]
  dsimp only
  have hr1 : checkInvalidChars dedupPyFO s (seqUpper s) san (initResult h s san) =
      { initResult h s san with
        corrected_sequence := some (if san then String.mk (seqUpper s) else s) } := by
    unfold checkInvalidChars
    rw [if_pos (by simp [hclean])]
  rw [hr1]
  have hfin : finalSeqOf san (seqUpper s)
      ({ initResult h s san with
         corrected_sequence := some (if san then String.mk (seqUpper s) else s) }) =
      (if san then (if san then String.mk (seqUpper s) else s).toList else seqUpper s) := by
    unfold finalSeqOf
    cases san <;> simp
  rw [hfin]
  have hfinlen :
      (if san then (if san then String.mk (seqUpper s) else s).toList else seqUpper s).length =
        s.length := by
    cases san <;> simp [hlen2]
  have hmin : checkMinLength
      (if san then (if san then String.mk (seqUpper s) else s).toList else seqUpper s) m
      ({ initResult h s san with
         corrected_sequence := some (if san then String.mk (seqUpper s) else s) }) =
      { initResult h s san with
        corrected_sequence := some (if san then String.mk (seqUpper s) else s) } := by
    unfold checkMinLength
    rw [if_neg]
    rw [hfinlen]
    omega
  rw [hmin]
  constructor
  · rw [checkComplexity_is_valid, checkAllN_is_valid]
    simp [initResult]
  · rw [checkComplexity_errors, checkAllN_errors]
    simp [initResult]

/-- Witness for C5 (amended) at `"acgtNACGT"` with `min_length = 9`. -/
theorem c5_acgtn_sequences_valid_witness :
    (validate_sequence "h" "acgtNACGT" 9 true).is_valid = true ∧
    (validate_sequence "h" "acgtNACGT" 9 true).errors = [] :=
  c5_acgtn_sequences_valid "h" "acgtNACGT" 9 true (by decide) (by decide) (by decide)

theorem upperTable_not_ws :
    ∀ p ∈ upperTable, isReplacedWs p.1 = false ∧ isReplacedWs p.2 = false := by decide

theorem isReplacedWs_pyUpperChar (c : Char) :
    isReplacedWs (pyUpperChar c) = isReplacedWs c := by
  unfold pyUpperChar
  cases hf : upperTable.find? (fun p => p.1 == c) with
  | none => rfl
  | some p =>
    have hmem := List.mem_of_find?_eq_some hf
    have hc : p.1 = c := by
      have hp := List.find?_some hf
      simpa using hp
    obtain ⟨h1, h2⟩ := upperTable_not_ws p hmem
    rw [h2, ← hc, h1]

/-- Uppercasing commutes with whitespace stripping in length. -/
theorem removeWs_map_upper_length (l : List Char) :
    (removeWs (l.map pyUpperChar)).length = (removeWs l).length := by
  induction l with
  | nil => rfl
  | cons c rest ih =>
    unfold removeWs at ih ⊢
    simp only [List.map_cons, List.filter_cons, isReplacedWs_pyUpperChar]
    cases hc : isReplacedWs c <;> simp [hc, ih]

theorem checkMinLength_corrected (f : List Char) (m : Nat) (r : ValidationResult) :
    (checkMinLength f m r).corrected_sequence = r.corrected_sequence := by
  unfold checkMinLength; split <;> simp [addError]

theorem checkAllN_corrected (f : List Char) (r : ValidationResult) :
    (checkAllN f r).corrected_sequence = r.corrected_sequence := by
  unfold checkAllN; split <;> simp [addWarning]

theorem checkComplexity_corrected (f : List Char) (r : ValidationResult) :
    (checkComplexity f r).corrected_sequence = r.corrected_sequence := by
  unfold checkComplexity; split <;> simp [addWarning]

/-- C4 counterexample: for the whitespace-only input `" "` the
empty-sequence early exit stores the raw input string, so the corrected
sequence contains a character outside {A,C,G,T,N} and its length differs
from the whitespace-stripped length of the input. -/
theorem c4_counterexample :
    (validate_sequence "h" " " 0 true).corrected_sequence = some " " ∧
    " ".toList.all isACGTN = false ∧
    " ".length ≠ (removeWs " ".toList).length := by decide

/-- C4 as amended: for every input that does NOT trim to the empty string,
`validate_sequence(h, s, 0, sanitize=true)` returns a corrected sequence
over {A,C,G,T,N} whose length is that of `s` with internal whitespace
(space, tab, newline — the characters the source strips) removed. -/
theorem c4_sanitized_alphabet_and_length (h s : String)
    (hne : pyStripEmpty s = false) :
    ∃ c, (validate_sequence h s 0 true).corrected_sequence = some c ∧
      c.toList.all isACGTN = true ∧ c.length = (removeWs s.toList).length := by
  have hlenEq : (seqUpper s).length = (removeWs s.toList).length := by
    unfold seqUpper
    exact removeWs_map_upper_length s.toList
  unfold validate_sequence validateSequenceD
  rw [if_neg (by simp [hne])]
  dsimp only
  rw [checkComplexity_corrected, checkAllN_corrected, checkMinLength_corrected]
  unfold checkInvalidChars
  by_cases hcl : ((seqUpper s).filter (fun c => !isACGTN c)).isEmpty = true
  · rw [if_pos hcl]
    refine ⟨String.mk (seqUpper s), by simp, ?_, ?_⟩
    · have hnil : (seqUpper s).filter (fun c => !isACGTN c) = [] := by
        simpa using hcl
      have hall : ∀ c ∈ seqUpper s, isACGTN c = true := by
        intro c hc
        have := List.filter_eq_nil_iff.mp hnil c hc
        simpa using this
      simpa using List.all_eq_true.mpr hall
    · simpa using hlenEq
  · rw [if_neg hcl]
    dsimp only
    rw [if_pos rfl]
    refine ⟨String.mk ((seqUpper s).map (fun c => if isACGTN c then c else 'N')),
      by simp, ?_, ?_⟩
    · apply List.all_eq_true.mpr
      intro c hc
      simp only [String.toList] at hc
      obtain ⟨c0, _, rfl⟩ := List.mem_map.mp hc
      by_cases h0 : isACGTN c0 = true
      · simp [h0]
      · rw [if_neg h0]
        decide
    · simpa using hlenEq

/-- Witness for C4 (amended) at the mixed input `"ac gX\ty"`. -/
theorem c4_sanitized_alphabet_and_length_witness :
    ∃ c, (validate_sequence "h" "ac gX\ty" 0 true).corrected_sequence = some c ∧
      c.toList.all isACGTN = true ∧ c.length = (removeWs "ac gX\ty".toList).length :=
  c4_sanitized_alphabet_and_length "h" "ac gX\ty" (by decide)

/-- The `invalid_chars` list collected at validator.py lines 56–58. -/
def offendingChars (s : String) : List Char :=
  (seqUpper s).filter (fun c => !isACGTN c)

/-- The message claim C8 asserts: the sorted unique offending characters,
comma-joined after the fixed message stem. -/
def sortedInvalidMsg (s : String) : String :=
  "Invalid characters found: " ++
    joinCommaChars ((dedupPyFO (offendingChars s)).insertionSort (fun a b => a ≤ b))

/-- Claim C8 as stated: whatever order Python's set iteration takes, the
appended message lists the offending characters sorted ascending. -/
def ClaimC8 : Prop :=
  ∀ d : List Char → List Char, IsSetOrder d →
    ∀ (h s : String) (m : Nat) (san : Bool),
      (∃ c ∈ s.toList, isPySpace c = false ∧ isACGTN (pyUpperChar c) = false) →
      sortedInvalidMsg s ∈ (validateSequenceD d h s m san).errors

theorem mem_dedupPyFO : ∀ (l : List Char) (c : Char), c ∈ dedupPyFO l ↔ c ∈ l := by
  intro l
  induction l with
  | nil => intro c; simp [dedupPyFO]
  | cons a rest ih =>
    intro c
    simp only [dedupPyFO, List.mem_cons, List.mem_filter, ih]
    constructor
    · rintro (rfl | ⟨hc, _⟩)
      · exact Or.inl rfl
      · exact Or.inr hc
    · rintro (rfl | hc2)
      · exact Or.inl rfl
      · by_cases hac : c = a
        · exact Or.inl hac
        · exact Or.inr ⟨hc2, by simpa using hac⟩

theorem nodup_dedupPyFO : ∀ l : List Char, (dedupPyFO l).Nodup := by
  intro l
  induction l with
  | nil => simp [dedupPyFO]
  | cons a rest ih =>
    rw [dedupPyFO]
    refine List.Nodup.cons ?_ (List.Nodup.filter _ ih)
    intro hmem
    have := (List.mem_filter.mp hmem).2
    simp at this

theorem isSetOrder_dedupPyFO : IsSetOrder dedupPyFO :=
  fun l => ⟨nodup_dedupPyFO l, fun c => mem_dedupPyFO l c⟩

/-- Reversed first-occurrence order: another admissible set order. -/
def revFO (l : List Char) : List Char :=
  (dedupPyFO l).reverse

theorem isSetOrder_revFO : IsSetOrder revFO := by
  intro l
  refine ⟨List.nodup_reverse.mpr (nodup_dedupPyFO l), fun c => ?_⟩
  simp [revFO, mem_dedupPyFO l c]

theorem replacedWs_pySpace (c : Char) (h : isReplacedWs c = true) : isPySpace c = true := by
  simp only [isReplacedWs, Bool.or_eq_true] at h
  simp only [isPySpace, Bool.or_eq_true]
  tauto

theorem checkInvalidChars_errors_of_bad (d : List Char → List Char) (s : String)
    (u : List Char) (san : Bool) (r : ValidationResult)
    (hu : (u.filter (fun c => !isACGTN c)).isEmpty = false) :
    (checkInvalidChars d s u san r).errors = r.errors ++
      ["Invalid characters found: " ++ joinCommaChars (d (u.filter (fun c => !isACGTN c)))] := by
  unfold checkInvalidChars
  rw [if_neg (by simp [hu])]
  dsimp only
  split <;> simp [addError]

theorem checkMinLength_errors_sup (f : List Char) (m : Nat) (r : ValidationResult)
    (msg : String) (h : msg ∈ r.errors) : msg ∈ (checkMinLength f m r).errors := by
  unfold checkMinLength
  split
  · simp only [addError, List.mem_append]
    exact Or.inl h
  · exact h

/-- C8 counterexample: the code never sorts — under the admissible
reversed set order, the message for input `"XZ"` is
`"Invalid characters found: Z, X"`, not the sorted
`"Invalid characters found: X, Z"` the claim requires. -/
theorem c8_counterexample : ¬ ClaimC8 := by
  intro hclaim
  have h1 := hclaim revFO isSetOrder_revFO "h" "XZ" 0 false
    ⟨'X', by decide, by decide, by decide⟩
  exact absurd h1 (by decide)

/-- C8 as amended: for every sequence containing a non-whitespace character
outside ACGTN (case-insensitive), the appended error message is exactly
`"Invalid characters found: "` followed by the unique offending characters
joined by `", "` — in the (unspecified) iteration order of the Python set,
not necessarily sorted. -/
theorem c8_invalid_chars_message (d : List Char → List Char) (hd : IsSetOrder d)
    (h s : String) (m : Nat) (san : Bool)
    (hbad : ∃ c ∈ s.toList, isPySpace c = false ∧ isACGTN (pyUpperChar c) = false) :
    ("Invalid characters found: " ++ joinCommaChars (d (offendingChars s))) ∈
      (validateSequenceD d h s m san).errors ∧
    (d (offendingChars s)).Nodup ∧
    (∀ c, c ∈ d (offendingChars s) ↔ c ∈ offendingChars s) := by
  obtain ⟨c, hcmem, hcws, hcbad⟩ := hbad
  have hstrip : pyStripEmpty s = false := by
    unfold pyStripEmpty
    cases hall : s.toList.all isPySpace with
    | false => rfl
    | true =>
      have := List.all_eq_true.mp hall c hcmem
      rw [hcws] at this
      exact absurd this (by simp)
  have hws2 : isReplacedWs c = false := by
    cases hw : isReplacedWs c with
    | false => rfl
    | true =>
      rw [replacedWs_pySpace c hw] at hcws
      exact absurd hcws (by simp)
  have hupmem : pyUpperChar c ∈ seqUpper s := by
    unfold seqUpper removeWs
    refine List.mem_filter.mpr ⟨List.mem_map.mpr ⟨c, hcmem, rfl⟩, ?_⟩
    simp [isReplacedWs_pyUpperChar, hws2]
  have hoffmem : pyUpperChar c ∈ offendingChars s :=
    List.mem_filter.mpr ⟨hupmem, by simp [hcbad]⟩
  have hne2 : ((seqUpper s).filter (fun x => !isACGTN x)).isEmpty = false := by
    have : offendingChars s ≠ [] := List.ne_nil_of_mem hoffmem
    unfold offendingChars at this
    simpa [List.isEmpty_iff] using this
  refine ⟨?_, (hd (offendingChars s)).1, fun c2 => (hd (offendingChars s)).2 c2⟩
  unfold validateSequenceD
  rw [if_neg (by simp [hstrip])]
  dsimp only
  rw [checkComplexity_errors, checkAllN_errors]
  apply checkMinLength_errors_sup
  rw [checkInvalidChars_errors_of_bad d s (seqUpper s) san _ hne2]
  simp [initResult, offendingChars]

/-- Witness for C8 (amended) at input `"XZ"` with the first-occurrence
set order. -/
theorem c8_invalid_chars_message_witness :
    ("Invalid characters found: " ++ joinCommaChars (dedupPyFO (offendingChars "XZ"))) ∈
      (validateSequenceD dedupPyFO "h" "XZ" 0 false).errors ∧
    (dedupPyFO (offendingChars "XZ")).Nodup ∧
    (∀ c, c ∈ dedupPyFO (offendingChars "XZ") ↔ c ∈ offendingChars "XZ") :=
  c8_invalid_chars_message dedupPyFO isSetOrder_dedupPyFO "h" "XZ" 0 false
    ⟨'X', by decide, by decide, by decide⟩

/-- C9: for every batch with a non-empty list of contributing lengths, the
report's quartiles are the entries of the ascending-sorted length list at
indices n//4 (q1), n//2 (q2, which is also the median) and 3n//4 (q3),
with no interpolation; and concretely `[10,20,30,40,50]` gives
q1 = 20, q2 = 30, q3 = 40. -/
theorem c9_report_quartiles :
    (∀ rs : List ValidationResult, reportLengths rs ≠ [] →
      ∃ st, (generate_report rs).sequence_lengths = some st ∧
        st.quartiles.q1 = ((reportLengths rs).insertionSort (fun a b => a ≤ b)).getD
          ((reportLengths rs).length / 4) 0 ∧
        st.quartiles.q2 = ((reportLengths rs).insertionSort (fun a b => a ≤ b)).getD
          ((reportLengths rs).length / 2) 0 ∧
        st.median = st.quartiles.q2 ∧
        st.quartiles.q3 = ((reportLengths rs).insertionSort (fun a b => a ≤ b)).getD
          (3 * (reportLengths rs).length / 4) 0) ∧
    calculate_quartiles [10, 20, 30, 40, 50] = { q1 := 20, q2 := 30, q3 := 40 } := by
  constructor
  · intro rs hlen
    have hrs : rs.isEmpty = false := by
      cases rs with
      | nil => simp [reportLengths, contributingPairs] at hlen
      | cons a t => rfl
    have hpos : 0 < ((reportLengths rs).insertionSort (fun a b => a ≤ b)).length := by
      rw [List.length_insertionSort]
      exact List.length_pos.mpr hlen
    unfold generate_report
    rw [if_neg (by simp [hrs])]
    dsimp only
    unfold calculate_length_stats
    rw [if_neg (by simpa [List.isEmpty_iff] using hlen)]
    refine ⟨_, rfl, ?_, ?_, ?_, ?_⟩
    · unfold calculate_quartiles
      dsimp only
      rw [if_pos hpos, List.length_insertionSort]
    · unfold calculate_quartiles
      dsimp only
      rw [if_pos hpos, List.length_insertionSort]
    · unfold calculate_quartiles
      dsimp only
      rw [if_pos hpos, List.length_insertionSort]
    · unfold calculate_quartiles
      dsimp only
      rw [if_pos hpos, List.length_insertionSort]
  · decide

/-- Witness for C9 at a concrete five-record batch whose contributing
lengths are pairwise distinct. -/
theorem c9_report_quartiles_witness :
    ∃ st, (generate_report (validate_sequences
        [("a", "ACGTACGTAC"), ("b", "ACGTACGTACGTACGTACGT"),
         ("c", "ACGTACGTACGTACGTACGTACGTACGTAC"),
         ("d", "ACGTACGTACGTACGTACGTACGTACGTACGTACGTACGT"),
         ("e", "ACGTACGTACGTACGTACGTACGTACGTACGTACGTACGTACGTACGTAC")] 0 false)).sequence_lengths =
      some st ∧
      st.quartiles.q1 = 20 ∧ st.quartiles.q2 = 30 ∧
      st.median = st.quartiles.q2 ∧ st.quartiles.q3 = 40 := by
  obtain ⟨st, h1, h2, h3, h4, h5⟩ := c9_report_quartiles.1 (validate_sequences
    [("a", "ACGTACGTAC"), ("b", "ACGTACGTACGTACGTACGT"),
     ("c", "ACGTACGTACGTACGTACGTACGTACGTAC"),
     ("d", "ACGTACGTACGTACGTACGTACGTACGTACGTACGTACGT"),
     ("e", "ACGTACGTACGTACGTACGTACGTACGTACGTACGTACGTACGTACGTAC")] 0 false) (by decide)
  refine ⟨st, h1, ?_, ?_, h4, ?_⟩
  · rw [h2]; decide
  · rw [h3]; decide
  · rw [h5]; decide

/-- C6 (failing-input evaluation): validator results never carry an
`original_sequence` key, so the fallback
`result.get("corrected_sequence") or result.get("original_sequence", "")`
in `generate_report` produces the empty string instead of the original raw
sequence. For the batch `[("h", "QQQQ")]` validated without sanitization
(`corrected_sequence` is `None` there), the analyzed sequence is empty even
though the raw sequence `"QQQQ"` is not; the record is counted in the
validity/error summary but contributes nothing to the length, GC or
per-sequence statistics — the claim instead requires it to contribute its
length 4. -/
theorem c6_report_ignores_raw_sequence :
    analyzedSeq ((validate_sequences [("h", "QQQQ")] 0 false).headI) = "" ∧
    ("QQQQ" : String) ≠ "" ∧
    (generate_report (validate_sequences [("h", "QQQQ")] 0 false)).sequence_lengths = none ∧
    (generate_report (validate_sequences [("h", "QQQQ")] 0 false)).gc_content = none ∧
    (generate_report (validate_sequences [("h", "QQQQ")] 0 false)).sequence_statistics = [] ∧
    (generate_report (validate_sequences [("h", "QQQQ")] 0 false)).summary.total_sequences = 1 ∧
    (generate_report (validate_sequences [("h", "QQQQ")] 0 false)).summary.invalid_sequences = 1 := by
  decide

/-- The count the spec's `sanitizedSequences` sentence describes, stated
from the spec's words for comparison with the code: results whose corrected
sequence is present and differs from that record's original normalized
(uppercase, whitespace-stripped) sequence. -/
def specSanitizedCount (inputs : List (String × String))
    (results : List ValidationResult) : Nat :=
  ((inputs.zip results).filter (fun p =>
    match p.2.corrected_sequence with
    | some c => decide (c ≠ String.mk (seqUpper p.1.2))
    | none => false)).length

/-- C7 (failing-input evaluation): for the batch `[("h", "ACGT")]` validated
with sanitize=true, the corrected sequence equals the normalized original,
so the spec's count is 0 — but `get_validation_summary` compares against the
never-present `original_sequence` key (default `""`) and reports 1. -/
theorem c7_sanitized_count_wrong :
    (get_validation_summary (validate_sequences [("h", "ACGT")] 0 true)).sanitized_sequences = 1 ∧
    specSanitizedCount [("h", "ACGT")] (validate_sequences [("h", "ACGT")] 0 true) = 0 := by
  decide

end GenomeCleaner
